import Mathlib

/-!
Verification development for the `battery_devices_monitor` Home Assistant
integration (repository Geek-MD/Battery_Devices_Monitor).

The Python sources under `custom_components/battery_devices_monitor/` are
shallowly embedded below:

* Python numbers are modelled by `ℚ`; `float(v)` is modelled by
  `Val.toFloat?`.  A Python string value carries the outcome of `float`
  applied to it as explicit data (`Val.str s f`).
* Python strings are compared and searched code-point-wise; the helper
  functions below operate on `String.data` (lists of characters) so that
  everything kernel-evaluates.
* Python dicts are modelled as association lists in insertion order
  (`alookup` / `aset`), matching CPython's ordered-dict semantics.
* `sorted` (a stable sort) is modelled by `List.insertionSort` (also
  stable) over the same key order.
-/

/-! ## Code-point string primitives (models of Python `str` operations) -/

/-- Model of Python list/`str` prefix test on character lists. -/
def isPrefixL : List Char → List Char → Bool
  | [], _ => true
  | _ :: _, [] => false
  | a :: as, b :: bs => a = b && isPrefixL as bs

/-- Model of Python `pat in s` (substring containment) on character lists. -/
def containsSubL (pat : List Char) : List Char → Bool
  | [] => isPrefixL pat []
  | c :: rest => isPrefixL pat (c :: rest) || containsSubL pat rest

/-- Python `pat in s` for strings. -/
def strContains (s pat : String) : Bool := containsSubL pat.data s.data

/-- Python `s.startswith(pre)`. -/
def strStartsWith (s pre : String) : Bool := isPrefixL pre.data s.data

/-- Python `s.lower()` (character-wise, sufficient for the ASCII identifiers
and names this integration handles). -/
def strLower (s : String) : String := ⟨s.data.map Char.toLower⟩

/-- Python `a < b` on strings: strict lexicographic order by code point. -/
def lexLt : List Char → List Char → Bool
  | [], [] => false
  | [], _ :: _ => true
  | _ :: _, [] => false
  | a :: as, b :: bs => decide (a < b) || (decide (a = b) && lexLt as bs)

/-- Python `a <= b` on strings. -/
def lexLe (a b : List Char) : Bool := lexLt a b || decide (a = b)

/-- Python `s in l` for a list of strings. -/
def strElem (s : String) : List String → Bool
  | [] => false
  | x :: rest => if s = x then true else strElem s rest

/-- Python truthiness of an optional string (`None` and `""` are falsy). -/
def strTruthy : Option String → Bool
  | none => false
  | some s => decide (s ≠ "")

/-! ## `const.py` -/

def DOMAIN : String := "battery_devices_monitor"

def DEFAULT_BATTERY_THRESHOLD : ℚ := 20

def DEFAULT_EXCLUDED_DEVICES : List String := []

/-- Battery attribute names to check (in order of preference). -/
def BATTERY_ATTRS : List String := ["battery_level", "battery", "Battery"]

def STATE_OK : String := "OK"

def STATE_PROBLEM : String := "Problem"

/-- Modelled from the spec: `const.py` in the repository does not define
`EXCLUDED_ENTITY_DOMAINS`, although `utils.py` imports and uses it.  The
docstring of `should_exclude_entity` specifies the excluded domains as
automation, scene and script. -/
def EXCLUDED_ENTITY_DOMAINS : List String := ["automation", "scene", "script"]

/-- `utils.py`: name pattern to exclude from monitoring. -/
def EXCLUDED_NAME_PATTERN : String := "Battery Devices Monitor"

/-! ## Values and entity states

A `Val` is a Python value as far as this integration observes it: a number
(observed through `float`), a string (whose `float`-parse outcome is carried
as data), or `None`.  Other Python values behave like `None` for the only
operations applied to attribute values here. -/

inductive Val where
  | num (q : ℚ)
  | str (s : String) (asFloat : Option ℚ)
  | none_
deriving DecidableEq

/-- Python `float(v)`: `some q` when the conversion succeeds. -/
def Val.toFloat? : Val → Option ℚ
  | .num q => some q
  | .str _ f => f
  | .none_ => none

/-- A Home Assistant entity state (`homeassistant.core.State`): the entity
id, the state value and the attribute dict.  The state value is a Python
string; the code only passes it to `float`, so it is modelled by its `Val`
view. -/
structure State where
  entity_id : String
  state : Val
  attributes : List (String × Val)
deriving DecidableEq

/-- First-match lookup in an attribute dict (`attributes[k]` / key order). -/
def lookupAttr : List (String × Val) → String → Option Val
  | [], _ => none
  | (k, v) :: rest, key => if k = key then some v else lookupAttr rest key

/-! ## `utils.py` -/

/-- `entity_id.split(".")[0] if "." in entity_id else ""`. -/
def entityDomain (eid : String) : String :=
  if eid.data.any (fun c => c = '.') then ⟨eid.data.takeWhile (fun c => c ≠ '.')⟩
  else ""

/-- `utils.should_exclude_entity`. -/
def should_exclude_entity (s : State) : Bool :=
  if strStartsWith s.entity_id ("sensor." ++ DOMAIN) then true
  else if strElem (entityDomain s.entity_id) EXCLUDED_ENTITY_DOMAINS then true
  else false

/-- The attribute loop of `utils.get_battery_level`: for each name in
`BATTERY_ATTRS`, if `attributes.get(name)` is not `None`, try `float` on it
and return the result, continuing with the next name on conversion
failure. -/
def firstAttrFloat (s : State) : List String → Option ℚ
  | [] => none
  | a :: rest =>
    match lookupAttr s.attributes a with
    | some v =>
      if v = Val.none_ then firstAttrFloat s rest
      else
        match v.toFloat? with
        | some q => some q
        | none => firstAttrFloat s rest
    | none => firstAttrFloat s rest

/-- `utils.get_battery_level`. -/
def get_battery_level (s : State) : Option ℚ :=
  if should_exclude_entity s then none
  else
    match firstAttrFloat s BATTERY_ATTRS with
    | some q => some q
    | none =>
      if strContains (strLower s.entity_id) "battery" then
        match s.state.toFloat? with
        | some q => if 0 ≤ q ∧ q ≤ 100 then some q else none
        | none => none
      else none

/-- `utils.has_battery_attribute` (`attr in attributes` is key presence,
including keys whose value is `None`). -/
def has_battery_attribute (s : State) : Bool :=
  if should_exclude_entity s then false
  else if BATTERY_ATTRS.any (fun a => (lookupAttr s.attributes a).isSome) then true
  else strContains (strLower s.entity_id) "battery"

/-- `utils.is_battery_device`. -/
def is_battery_device (s : State) : Bool :=
  (get_battery_level s).isSome

/-- `utils.has_battery_but_unavailable`. -/
def has_battery_but_unavailable (s : State) : Bool :=
  if !has_battery_attribute s then false
  else if (get_battery_level s).isSome then false
  else true

/-! ## Registries and the host handle -/

/-- An entity registry entry (the only field the code reads). -/
structure EntityEntry where
  device_id : Option String

/-- A device registry entry (the fields the code reads). -/
structure DeviceEntry where
  identifiers : List (String × String)
  name_by_user : Option String
  name : Option String
  area_id : Option String

/-- An area registry entry. -/
structure AreaEntry where
  name : String

/-- The slice of the Home Assistant host the integration observes:
`hass.states.async_all()` and the three registries. -/
structure Hass where
  states : List State
  entity_reg : String → Option EntityEntry
  device_reg : String → Option DeviceEntry
  area_reg : String → Option AreaEntry

/-- Python `a or b` for optional strings (`None` and `""` are falsy). -/
def orFalsy (a b : Option String) : Option String :=
  if strTruthy a then a else b

/-- The `friendly_name` fallback of `utils.get_device_info`:
`state.attributes.get("friendly_name", state.entity_id)`.  A non-string
`friendly_name` value is mapped to `none`, which downstream callers skip —
matching the source, where a (truthy) non-string value makes the
`EXCLUDED_NAME_PATTERN in device_name` test raise and the caller's
`except Exception` skip the entity. -/
def friendly_fallback (s : State) : Option String :=
  match lookupAttr s.attributes "friendly_name" with
  | some (.str nm _) => some nm
  | some _ => none
  | none => some s.entity_id

/-- The registry block of `utils.get_device_info` (lines 142-166): the
`(device_name, device_id, area_name)` triple it leaves behind, or `none`
when the block returned `None, None, None` early (the monitor's own device,
or a registry name containing the excluded pattern). -/
def gdi_registry_block (h : Hass) (s : State) :
    Option (Option String × Option String × Option String) :=
  match h.entity_reg s.entity_id with
  | none => some (none, none, none)
  | some ee =>
    if strTruthy ee.device_id then
      match h.device_reg (ee.device_id.getD "") with
      | none => some (none, ee.device_id, none)
      | some de =>
        if de.identifiers.any (fun p => p.1 = DOMAIN) then none
        else
          let dn := orFalsy de.name_by_user de.name
          if strTruthy dn && strContains (dn.getD "") EXCLUDED_NAME_PATTERN then
            none
          else
            let an : Option String :=
              if strTruthy de.area_id then
                match h.area_reg (de.area_id.getD "") with
                | some ae => some ae.name
                | none => none
              else none
            some (dn, ee.device_id, an)
    else some (none, none, none)

/-- `utils.get_device_info`: returns `(display_name, device_id, area_name)`;
a `none` display name is the "skip this entity" outcome (the monitor's own
device, an excluded display name, or the exception path). -/
def get_device_info (h : Hass) (s : State) :
    Option String × Option String × Option String :=
  match gdi_registry_block h s with
  | none => (none, none, none)
  | some (dn, did, an) =>
    let dn2 : Option String := if strTruthy dn then dn else friendly_fallback s
    if strTruthy dn2 && strContains (dn2.getD "") EXCLUDED_NAME_PATTERN then
      (none, none, none)
    else (dn2, did, an)

/-! ## `utils.get_all_battery_devices` -/

/-- One value of the `battery_devices` dict built by
`get_all_battery_devices`. -/
structure DeviceData where
  name : String
  entity_id : String
  area : Option String
  battery_level : ℚ
deriving DecidableEq

/-- First-match lookup in an insertion-ordered dict. -/
def alookup {α : Type} : List (String × α) → String → Option α
  | [], _ => none
  | (k, v) :: rest, key => if k = key then some v else alookup rest key

/-- `dict[k] = v` on an insertion-ordered dict: replace in place if the key
is present, append otherwise. -/
def aset {α : Type} : List (String × α) → String → α → List (String × α)
  | [], k, v => [(k, v)]
  | (k', v') :: rest, k, v =>
    if k' = k then (k, v) :: rest else (k', v') :: aset rest k v

/-- The per-state body of the `get_all_battery_devices` loop: `none` when
the state is skipped (`is_battery_device` false, no battery level, device
info error, or monitor device), otherwise the `(unique_key, value)` pair
that the loop considers inserting. -/
def entryOf (h : Hass) (s : State) : Option (String × DeviceData) :=
  if !is_battery_device s then none
  else
    match get_battery_level s with
    | none => none
    | some lvl =>
      match get_device_info h s with
      | (none, _, _) => none
      | (some nm, did, area) =>
        let key := if strTruthy did then did.getD "" else s.entity_id
        some (key, ⟨nm, s.entity_id, area, lvl⟩)

/-- The `for state in all_states` loop of `get_all_battery_devices`
(keep-the-highest-level deduplication). -/
def gabdLoop (h : Hass) :
    List State → List (String × DeviceData) → List (String × DeviceData)
  | [], acc => acc
  | s :: rest, acc =>
    match entryOf h s with
    | none => gabdLoop h rest acc
    | some (k, d) =>
      match alookup acc k with
      | some existing =>
        if d.battery_level > existing.battery_level then
          gabdLoop h rest (aset acc k d)
        else gabdLoop h rest acc
      | none => gabdLoop h rest (aset acc k d)

/-- `utils.get_all_battery_devices`. -/
def get_all_battery_devices (h : Hass) : List (String × DeviceData) :=
  gabdLoop h h.states []

/-! ## `utils.get_devices_without_battery_info` -/

/-- One value of the `devices_without_info` dict. -/
structure WithoutData where
  name : String
  area : Option String
  entity_id : String
deriving DecidableEq

/-- The per-state body of the `get_devices_without_battery_info` loop. -/
def entryWithout (h : Hass) (s : State) : Option (String × WithoutData) :=
  if !has_battery_but_unavailable s then none
  else
    match get_device_info h s with
    | (none, _, _) => none
    | (some nm, did, area) =>
      let key := if strTruthy did then did.getD "" else s.entity_id
      some (key, ⟨nm, area, s.entity_id⟩)

/-- The `for state in all_states` loop of `get_devices_without_battery_info`
(first entity per device wins). -/
def gdwbiLoop (h : Hass) :
    List State → List (String × WithoutData) → List (String × WithoutData)
  | [], acc => acc
  | s :: rest, acc =>
    match entryWithout h s with
    | none => gdwbiLoop h rest acc
    | some (k, d) =>
      if (alookup acc k).isSome then gdwbiLoop h rest acc
      else gdwbiLoop h rest (aset acc k d)

/-- `utils.get_devices_without_battery_info`. -/
def get_devices_without_battery_info (h : Hass) : List (String × WithoutData) :=
  gdwbiLoop h h.states []

/-! ## `sensor.py` -/

/-- Python 3 `round` to the nearest integer, halves to even, over `ℚ`
(`f` is the floor, `r/den` the fractional part). -/
def pyRound (q : ℚ) : ℤ :=
  let n := q.num
  let d : ℤ := (q.den : ℤ)
  let f := Int.fdiv n d
  let r := n - f * d
  if 2 * r < d then f
  else if 2 * r > d then f + 1
  else if f % 2 = 0 then f else f + 1

/-- A display dict of `devices_below_threshold` / `devices_above_threshold`:
`{"name": ..., "area": device_data.get("area", ""), "battery_level":
round(...)}`.  The `"area"` key is always present in `device_data`, so
`.get` returns its value - possibly `None`. -/
structure DevInfo where
  name : String
  area : Option String
  battery_level : ℤ
deriving DecidableEq

/-- A display dict of `excluded_devices` / `devices_without_battery_info`:
`{"name": ..., "area": ...}`. -/
structure ExclInfo where
  name : String
  area : Option String
deriving DecidableEq

/-- The display info built for a categorized device. -/
def mkDevInfo (d : DeviceData) : DevInfo :=
  ⟨d.name, d.area, pyRound d.battery_level⟩

/-- The display info built for an excluded device. -/
def mkExclInfo (d : DeviceData) : ExclInfo := ⟨d.name, d.area⟩

/-- Python `<=` on sort keys `(battery_level, name.lower(), area.lower())`:
lexicographic tuple comparison. -/
def keyLe3 (a b : ℤ × List Char × List Char) : Bool :=
  decide (a.1 < b.1) ||
    (decide (a.1 = b.1) &&
      (lexLt a.2.1 b.2.1 || (decide (a.2.1 = b.2.1) && lexLe a.2.2 b.2.2)))

/-- Sort key of the below/above lists:
`(x["battery_level"], x["name"].lower(), (x["area"] or "").lower())`. -/
def devKey (x : DevInfo) : ℤ × List Char × List Char :=
  (x.battery_level, (strLower x.name).data, (strLower (x.area.getD "")).data)

/-- The display order of the below/above lists: ascending by rounded battery
level, then by name (case-insensitively), then by area
(case-insensitively). -/
def devLe (x y : DevInfo) : Bool := keyLe3 (devKey x) (devKey y)

/-- Sort key of the excluded / without-battery-info lists:
`((x["name"] or "").lower(), (x["area"] or "").lower())` (embedded with a
constant first component to reuse the tuple order). -/
def exclKey (x : ExclInfo) : ℤ × List Char × List Char :=
  (0, (strLower x.name).data, (strLower (x.area.getD "")).data)

/-- The display order of the excluded / without-battery-info lists: by name
(case-insensitively), then by area (case-insensitively). -/
def exclLe (x y : ExclInfo) : Bool := keyLe3 (exclKey x) (exclKey y)

/-- Python `sorted` (stable) on the below/above lists, modelled by the
(stable) insertion sort over the same key order. -/
def pySortedDev (l : List DevInfo) : List DevInfo :=
  List.insertionSort (fun x y => devLe x y = true) l

/-- Python `sorted` (stable) on the excluded / without-info lists. -/
def pySortedExcl (l : List ExclInfo) : List ExclInfo :=
  List.insertionSort (fun x y => exclLe x y = true) l

/-- The categorization loop of `BatteryMonitorSensor.async_update`
(lines 163-192): excluded devices go to `excluded_devices_info`, the rest
are partitioned by `battery_level < threshold`.  Returns
`(excluded_devices_info, devices_below_threshold,
devices_above_threshold)` in iteration order. -/
def categorize (excl : List String) (t : ℚ) :
    List (String × DeviceData) → List ExclInfo × List DevInfo × List DevInfo
  | [] => ([], [], [])
  | (k, d) :: rest =>
    let (e, b, a) := categorize excl t rest
    if strElem k excl then (mkExclInfo d :: e, b, a)
    else if d.battery_level < t then (e, mkDevInfo d :: b, a)
    else (e, b, mkDevInfo d :: a)

/-- The without-battery-info loop of `async_update` (lines 194-219):
excluded devices and entries without a (truthy) `entity_id` are skipped. -/
def categorizeWithout (excl : List String) :
    List (String × WithoutData) → List ExclInfo
  | [] => []
  | (k, d) :: rest =>
    if strElem k excl then categorizeWithout excl rest
    else if d.entity_id = "" then categorizeWithout excl rest
    else ExclInfo.mk d.name d.area :: categorizeWithout excl rest

/-- The resolved configuration of the sensor (threshold and excluded device
keys, after applying the option defaults). -/
structure Config where
  battery_threshold : ℚ
  excluded_devices : List String

/-- The state and extra state attributes of `BatteryMonitorSensor`. -/
structure SensorAttrs where
  state : String
  devices_below_threshold : List DevInfo
  devices_above_threshold : List DevInfo
  total_monitored_devices : ℕ
  excluded_devices : List ExclInfo
  devices_without_battery_info : List ExclInfo
  devices_without_battery_info_status : String

/-- `BatteryMonitorSensor.async_update`: the state/attribute computation
(the event firing on lines 243-275 only publishes deltas to the host bus
and touches none of the state computed here). -/
def async_update (h : Hass) (cfg : Config) : SensorAttrs :=
  let all_devices := get_all_battery_devices h
  let all_without := get_devices_without_battery_info h
  let eba := categorize cfg.excluded_devices cfg.battery_threshold all_devices
  let without := categorizeWithout cfg.excluded_devices all_without
  { state := if eba.2.1 ≠ [] then STATE_PROBLEM else STATE_OK
    devices_below_threshold := pySortedDev eba.2.1
    devices_above_threshold := pySortedDev eba.2.2
    total_monitored_devices := eba.2.1.length + eba.2.2.length + without.length
    excluded_devices := pySortedExcl eba.1
    devices_without_battery_info := pySortedExcl without
    devices_without_battery_info_status :=
      if without ≠ [] then STATE_PROBLEM else STATE_OK }

/-! ## `sensor.py`: the state-change handler -/

/-- Modelled from the spec: a state-change event delivered by the host's
event dispatch ("repeated on every state-change event fired anywhere in
the host system").  The payload fields are those of the host's event
object; the handler reads none of them. -/
structure StateChangeEvent where
  entity_id : String

/-- What a sensor callback asks the host to do. -/
inductive ScheduledAction where
  | scheduleUpdate (force_refresh : Bool)
deriving DecidableEq

/-- `BatteryMonitorSensor._handle_state_change`:
`self.async_schedule_update_ha_state(force_refresh=True)`. -/
def handle_state_change (_e : StateChangeEvent) : ScheduledAction :=
  ScheduledAction.scheduleUpdate true

/-! ## Derived notions used by the statements -/

/-- The battery levels reported by the qualifying entities of `h.states`
that resolve to the unique key `k` (in state order). -/
def keyLevels (h : Hass) (k : String) : List ℚ :=
  (((h.states.filterMap (entryOf h)).filter
      (fun e => decide (e.1 = k))).map (fun e => e.2.battery_level))

/-- Concrete host for the `C2` witness: two battery entities of the same
registered device, reporting levels 30 and 80. -/
def c2hass : Hass where
  states :=
    [ ⟨"sensor.phone_batt1", .str "x" none, [("battery_level", .num 30)]⟩,
      ⟨"sensor.phone_batt2", .str "x" none, [("battery_level", .num 80)]⟩ ]
  entity_reg := fun eid =>
    if eid = "sensor.phone_batt1" ∨ eid = "sensor.phone_batt2" then
      some ⟨some "dev_phone"⟩
    else none
  device_reg := fun did =>
    if did = "dev_phone" then
      some ⟨[("vendor", "123")], none, some "Phone", some "area1"⟩
    else none
  area_reg := fun aid => if aid = "area1" then some ⟨"Living Room"⟩ else none

/-- The entry `get_all_battery_devices` keeps for `c2hass`'s device. -/
def c2dev : DeviceData := ⟨"Phone", "sensor.phone_batt2", some "Living Room", 80⟩

/-- C1's reading of the battery heuristic, following the claim's words: a
known battery attribute key is present, or the state value is numeric in
[0,100] and the entity identifier contains the (literal) substring
"battery". -/
def specBatteryRelated (s : State) : Bool :=
  BATTERY_ATTRS.any (fun a => (lookupAttr s.attributes a).isSome) ||
    ((match s.state.toFloat? with
      | some q => decide (0 ≤ q ∧ q ≤ 100)
      | none => false) &&
     strContains s.entity_id "battery")

/-- C1 amended: an entity is judged battery-related exactly when it is not
excluded (monitor's own sensor prefix, excluded domains) and either some
known battery attribute key holds a float-convertible value, or the state
value is numeric in [0,100] and the lowercased entity id contains
"battery". -/
def specBatteryRelatedAmended (s : State) : Bool :=
  !should_exclude_entity s &&
    (BATTERY_ATTRS.any (fun a =>
        match lookupAttr s.attributes a with
        | some v => v.toFloat?.isSome
        | none => false) ||
     ((match s.state.toFloat? with
       | some q => decide (0 ≤ q ∧ q ≤ 100)
       | none => false) &&
      strContains (strLower s.entity_id) "battery"))

/-- C1 counterexample input: a non-battery-named entity whose
`battery_level` attribute is present but holds `None`. -/
def c1state : State :=
  ⟨"light.lamp", .str "on" none, [("battery_level", .none_)]⟩

/-- C7 inputs: an out-of-range level 150 through the attribute branch ... -/
def c7attrState : State :=
  ⟨"sensor.thermo", .str "ok" none, [("battery_level", .num 150)]⟩

/-- ... and the same out-of-range value through the entity-id heuristic
branch (numeric state, "battery" in the id, no battery attribute). -/
def c7heurState : State :=
  ⟨"sensor.spare_battery", .str "150" (some 150), []⟩

/-- Concrete host for the `C8` witness: one registered battery device. -/
def c8hass : Hass where
  states :=
    [ ⟨"sensor.door_battery", .str "55" (some 55), [("battery_level", .num 55)]⟩ ]
  entity_reg := fun eid =>
    if eid = "sensor.door_battery" then some ⟨some "dev_door"⟩ else none
  device_reg := fun did =>
    if did = "dev_door" then
      some ⟨[("zigbee", "00aa")], none, some "Door Sensor", none⟩
    else none
  area_reg := fun _ => none

/-- The entry `get_all_battery_devices` returns for `c8hass`'s device. -/
def c8dev : DeviceData := ⟨"Door Sensor", "sensor.door_battery", none, 55⟩

/-! ## `__init__.py`: the two query services -/

/-- Decimal digit character. -/
def natDigit (n : ℕ) : Char :=
  match n with
  | 0 => '0'
  | 1 => '1'
  | 2 => '2'
  | 3 => '3'
  | 4 => '4'
  | 5 => '5'
  | 6 => '6'
  | 7 => '7'
  | 8 => '8'
  | _ => '9'

/-- Decimal digits of `n`, least significant first (`fuel ≥ 1 + log10 n`). -/
def natToRevDigits : ℕ → ℕ → List Char
  | 0, _ => []
  | fuel + 1, n =>
    if n < 10 then [natDigit n]
    else natDigit (n % 10) :: natToRevDigits fuel (n / 10)

/-- Decimal rendering of a natural number (Python `f"{n}"`). -/
def natToStr (n : ℕ) : String := ⟨(natToRevDigits (n + 1) n).reverse⟩

/-- Decimal rendering of an integer (Python `f"{i}"`). -/
def intToStr (i : ℤ) : String :=
  if i < 0 then "-" ++ natToStr i.natAbs else natToStr i.natAbs

/-- Python `"\n".join(lines)`. -/
def joinNL : List String → String
  | [] => ""
  | [x] => x
  | x :: rest => x ++ "\n" ++ joinNL rest

/-- One output line of `get_low_battery_devices`:
`f"{name} ({area}) - {battery_level_int}%"`, the `({area})` part omitted
when the area is falsy, with `battery_level_int = round(battery_level)`.
(`DevInfo` always carries the keys the source reads with `.get`
defaults.) -/
def fmtLowLine (d : DevInfo) : String :=
  let lvl := pyRound ((d.battery_level : ℚ))
  if strTruthy d.area then
    d.name ++ " (" ++ d.area.getD "" ++ ") - " ++ intToStr lvl ++ "%"
  else d.name ++ " - " ++ intToStr lvl ++ "%"

/-- One output line of the `get_devices_without_battery_info` service:
`f"{name} ({area})"`, the `({area})` part omitted when the area is
falsy. -/
def fmtWithoutLine (d : ExclInfo) : String :=
  if strTruthy d.area then d.name ++ " (" ++ d.area.getD "" ++ ")"
  else d.name

/-- The `for device in devices_below` loop building `output_lines`. -/
def formatLowLines : List DevInfo → List String
  | [] => []
  | d :: rest => fmtLowLine d :: formatLowLines rest

/-- The `for device in devices_without_info` loop building
`output_lines`. -/
def formatWithoutLines : List ExclInfo → List String
  | [] => []
  | d :: rest => fmtWithoutLine d :: formatWithoutLines rest

/-- The host as the services observe it: `hass.states.get(entity_id)`,
returning the queried entity's attributes (the monitor sensor's attribute
schema). -/
structure ServiceHass where
  states : String → Option SensorAttrs

/-- Service `battery_devices_monitor.get_low_battery_devices`:
`Except.error` models `HomeAssistantError`, `Except.ok` the
`{"result": ...}` response. -/
def get_low_battery_devices (h : ServiceHass) (entity_id : Option String) :
    Except String String :=
  match entity_id with
  | none => Except.error "entity_id is required"
  | some eid =>
    if eid = "" then Except.error "entity_id is required"
    else
      match h.states eid with
      | none => Except.error ("Entity " ++ eid ++ " not found")
      | some st =>
        Except.ok (joinNL (formatLowLines st.devices_below_threshold))

/-- Service `battery_devices_monitor.get_devices_without_battery_info`. -/
def get_devices_without_battery_info_service (h : ServiceHass)
    (entity_id : Option String) : Except String String :=
  match entity_id with
  | none => Except.error "entity_id is required"
  | some eid =>
    if eid = "" then Except.error "entity_id is required"
    else
      match h.states eid with
      | none => Except.error ("Entity " ++ eid ++ " not found")
      | some st =>
        Except.ok (joinNL (formatWithoutLines st.devices_without_battery_info))

/-- Sensor attributes for the `C6` witness. -/
def c6attrs : SensorAttrs where
  state := STATE_PROBLEM
  devices_below_threshold := [⟨"Door Sensor", some "Hall", 5⟩, ⟨"Remote", none, 15⟩]
  devices_above_threshold := []
  total_monitored_devices := 3
  excluded_devices := []
  devices_without_battery_info := [⟨"Camera", some "Yard"⟩]
  devices_without_battery_info_status := STATE_PROBLEM

/-- Host for the `C6` witness: one entity carrying `c6attrs`. -/
def c6hass : ServiceHass where
  states := fun eid =>
    if eid = "sensor.battery_monitor_status" then some c6attrs else none

/-! ## Dict lemmas -/

theorem alookup_aset_self {α : Type} (m : List (String × α)) (k : String) (v : α) :
    alookup (aset m k v) k = some v := by
  induction m with
  | nil => simp [aset, alookup]
  | cons p rest ih =>
    obtain ⟨k0, v0⟩ := p
    by_cases hk : k0 = k
    · subst hk
      simp [aset, alookup]
    · simp [aset, alookup, hk, ih]

theorem alookup_aset_ne {α : Type} (m : List (String × α)) (k k' : String) (v : α)
    (hne : k' ≠ k) : alookup (aset m k v) k' = alookup m k' := by
  induction m with
  | nil => simp [aset, alookup, Ne.symm hne]
  | cons p rest ih =>
    obtain ⟨k0, v0⟩ := p
    by_cases hk : k0 = k
    · subst hk
      simp [aset, alookup, Ne.symm hne]
    · simp [aset, alookup, hk, ih]

/-! ## Lemmas on the `get_all_battery_devices` loop -/

theorem gabdLoop_origin (h : Hass) :
    ∀ (sts : List State) (acc : List (String × DeviceData)) (k : String)
      (d : DeviceData), alookup (gabdLoop h sts acc) k = some d →
      alookup acc k = some d ∨ ∃ s ∈ sts, entryOf h s = some (k, d) := by
  intro sts
  induction sts with
  | nil =>
    intro acc k d hl
    exact Or.inl hl
  | cons s rest ih =>
    intro acc k d hl
    rcases hE : entryOf h s with _ | ⟨k', d'⟩ <;>
      simp only [gabdLoop, hE] at hl
    · rcases ih acc k d hl with h1 | ⟨s', hs', he'⟩
      · exact Or.inl h1
      · exact Or.inr ⟨s', List.mem_cons_of_mem _ hs', he'⟩
    · have step :
          ∀ acc' : List (String × DeviceData),
            acc' = aset acc k' d' →
            alookup (gabdLoop h rest acc') k = some d →
            alookup acc k = some d ∨ ∃ s1 ∈ s :: rest, entryOf h s1 = some (k, d) := by
        intro acc' hacc hl'
        subst hacc
        rcases ih _ k d hl' with h1 | ⟨s', hs', he'⟩
        · by_cases hkk : k = k'
          · subst hkk
            rw [alookup_aset_self] at h1
            obtain rfl : d' = d := Option.some.inj h1
            exact Or.inr ⟨s, List.mem_cons_self _ _, hE⟩
          · rw [alookup_aset_ne _ _ _ _ hkk] at h1
            exact Or.inl h1
        · exact Or.inr ⟨s', List.mem_cons_of_mem _ hs', he'⟩
      rcases hL : alookup acc k' with _ | existing <;> simp only [hL] at hl
      · exact step _ rfl hl
      · by_cases hgt : d'.battery_level > existing.battery_level
        · rw [if_pos hgt] at hl
          exact step _ rfl hl
        · rw [if_neg hgt] at hl
          rcases ih acc k d hl with h1 | ⟨s', hs', he'⟩
          · exact Or.inl h1
          · exact Or.inr ⟨s', List.mem_cons_of_mem _ hs', he'⟩

theorem gabdLoop_dominates (h : Hass) :
    ∀ (sts : List State) (acc : List (String × DeviceData)) (k : String)
      (d : DeviceData), alookup (gabdLoop h sts acc) k = some d →
      (∀ d0, alookup acc k = some d0 → d0.battery_level ≤ d.battery_level) ∧
      (∀ s ∈ sts, ∀ d', entryOf h s = some (k, d') →
        d'.battery_level ≤ d.battery_level) := by
  intro sts
  induction sts with
  | nil =>
    intro acc k d hl
    simp only [gabdLoop] at hl
    refine ⟨fun d0 h0 => ?_, fun s hs => absurd hs (List.not_mem_nil s)⟩
    rw [hl] at h0
    exact le_of_eq (congrArg DeviceData.battery_level (Option.some.inj h0)).symm
  | cons s rest ih =>
    intro acc k d hl
    rcases hE : entryOf h s with _ | ⟨k', d'⟩ <;>
      simp only [gabdLoop, hE] at hl
    · obtain ⟨hacc, hrest⟩ := ih acc k d hl
      refine ⟨hacc, fun s1 hs1 d1 he1 => ?_⟩
      rcases List.mem_cons.mp hs1 with rfl | hs1'
      · rw [hE] at he1
        exact absurd he1 (Option.noConfusion)
      · exact hrest s1 hs1' d1 he1
    · rcases hL : alookup acc k' with _ | existing <;> simp only [hL] at hl
      · obtain ⟨hacc, hrest⟩ := ih _ k d hl
        by_cases hkk : k = k'
        · subst hkk
          have hd' : d'.battery_level ≤ d.battery_level :=
            hacc d' (alookup_aset_self _ _ _)
          refine ⟨fun d0 h0 => ?_, fun s1 hs1 d1 he1 => ?_⟩
          · rw [hL] at h0
            exact absurd h0 (Option.noConfusion)
          · rcases List.mem_cons.mp hs1 with rfl | hs1'
            · rw [hE] at he1
              obtain ⟨-, rfl⟩ := Prod.mk.injEq .. ▸ Option.some.inj he1
              exact hd'
            · exact hrest s1 hs1' d1 he1
        · refine ⟨fun d0 h0 => ?_, fun s1 hs1 d1 he1 => ?_⟩
          · exact hacc d0 (by rw [alookup_aset_ne _ _ _ _ hkk]; exact h0)
          · rcases List.mem_cons.mp hs1 with rfl | hs1'
            · rw [hE] at he1
              obtain ⟨rfl, rfl⟩ := Prod.mk.injEq .. ▸ Option.some.inj he1
              exact absurd rfl hkk
            · exact hrest s1 hs1' d1 he1
      · by_cases hgt : d'.battery_level > existing.battery_level
        · rw [if_pos hgt] at hl
          obtain ⟨hacc, hrest⟩ := ih _ k d hl
          by_cases hkk : k = k'
          · subst hkk
            have hd' : d'.battery_level ≤ d.battery_level :=
              hacc d' (alookup_aset_self _ _ _)
            refine ⟨fun d0 h0 => ?_, fun s1 hs1 d1 he1 => ?_⟩
            · rw [hL] at h0
              obtain rfl : existing = d0 := Option.some.inj h0
              exact le_trans (le_of_lt hgt) hd'
            · rcases List.mem_cons.mp hs1 with rfl | hs1'
              · rw [hE] at he1
                obtain ⟨-, rfl⟩ := Prod.mk.injEq .. ▸ Option.some.inj he1
                exact hd'
              · exact hrest s1 hs1' d1 he1
          · refine ⟨fun d0 h0 => ?_, fun s1 hs1 d1 he1 => ?_⟩
            · exact hacc d0 (by rw [alookup_aset_ne _ _ _ _ hkk]; exact h0)
            · rcases List.mem_cons.mp hs1 with rfl | hs1'
              · rw [hE] at he1
                obtain ⟨rfl, rfl⟩ := Prod.mk.injEq .. ▸ Option.some.inj he1
                exact absurd rfl hkk
              · exact hrest s1 hs1' d1 he1
        · rw [if_neg hgt] at hl
          obtain ⟨hacc, hrest⟩ := ih acc k d hl
          refine ⟨hacc, fun s1 hs1 d1 he1 => ?_⟩
          rcases List.mem_cons.mp hs1 with rfl | hs1'
          · rw [hE] at he1
            obtain ⟨rfl, rfl⟩ := Prod.mk.injEq .. ▸ Option.some.inj he1
            have hex : existing.battery_level ≤ d.battery_level := hacc existing hL
            exact le_trans (not_lt.mp hgt) hex
          · exact hrest s1 hs1' d1 he1


/-! ## Claim theorems -/

/-- C2: for every device to which several qualifying entities resolve, the
entry `get_all_battery_devices` returns under that device's unique key
carries a `battery_level` that is one of, and at least every one of, the
battery levels reported by those entities - i.e. their maximum. -/
theorem get_all_battery_devices_keeps_max (h : Hass) (k : String) (d : DeviceData)
    (hmem : alookup (get_all_battery_devices h) k = some d) :
    d.battery_level ∈ keyLevels h k ∧
      ∀ l ∈ keyLevels h k, l ≤ d.battery_level := by
  have hor0 := gabdLoop_origin h h.states [] k d hmem
  constructor
  · rcases hor0 with h1 | ⟨s, hs, he⟩
    · exact absurd h1 (Option.noConfusion)
    · refine List.mem_map.mpr ⟨(k, d), List.mem_filter.mpr ⟨?_, by simp⟩, rfl⟩
      exact List.mem_filterMap.mpr ⟨s, hs, he⟩
  · intro l hl
    obtain ⟨e, hef, rfl⟩ := List.mem_map.mp hl
    obtain ⟨hem, hek⟩ := List.mem_filter.mp hef
    obtain ⟨s, hs, he⟩ := List.mem_filterMap.mp hem
    have hk : e.1 = k := by simpa using hek
    obtain ⟨-, hdom⟩ := gabdLoop_dominates h h.states [] k d hmem
    exact hdom s hs e.2 (by rw [← hk, ← he])

/-- Witness for C2 at `c2hass`: the kept level 80 is among the reported
levels {30, 80} and dominates them. -/
theorem get_all_battery_devices_keeps_max_witness :
    c2dev.battery_level ∈ keyLevels c2hass "dev_phone" ∧
      ∀ l ∈ keyLevels c2hass "dev_phone", l ≤ c2dev.battery_level :=
  get_all_battery_devices_keeps_max c2hass "dev_phone" c2dev (by decide)

/-! ## The categorize loop as a filter -/

theorem categorize_below_eq (excl : List String) (t : ℚ) :
    ∀ l : List (String × DeviceData),
      (categorize excl t l).2.1 =
        (l.filter (fun kd => !strElem kd.1 excl &&
          decide (kd.2.battery_level < t))).map (fun kd => mkDevInfo kd.2) := by
  intro l
  induction l with
  | nil => simp [categorize]
  | cons kd rest ih =>
    obtain ⟨k, d⟩ := kd
    by_cases he : strElem k excl
    · simp [categorize, he, ih]
    · by_cases hb : d.battery_level < t
      · simp [categorize, he, hb, ih, List.filter]
      · simp [categorize, he, hb, ih, List.filter]

theorem categorize_above_eq (excl : List String) (t : ℚ) :
    ∀ l : List (String × DeviceData),
      (categorize excl t l).2.2 =
        (l.filter (fun kd => !strElem kd.1 excl &&
          !decide (kd.2.battery_level < t))).map (fun kd => mkDevInfo kd.2) := by
  intro l
  induction l with
  | nil => simp [categorize]
  | cons kd rest ih =>
    obtain ⟨k, d⟩ := kd
    by_cases he : strElem k excl
    · simp [categorize, he, ih]
    · by_cases hb : d.battery_level < t
      · simp [categorize, he, hb, ih, List.filter]
      · simp [categorize, he, hb, ih, List.filter]

/-- C3: the sensor's update pass puts a monitored, non-excluded device in
`devices_below_threshold` exactly when its deduplicated battery level is
strictly below the threshold, and in `devices_above_threshold` otherwise:
up to display order, the two lists are exactly the images of the two
complementary filters of the deduplicated device map, so each non-excluded
device lands in exactly one of them. -/
theorem async_update_partitions_by_threshold (h : Hass) (cfg : Config) :
    ((async_update h cfg).devices_below_threshold).Perm
      (((get_all_battery_devices h).filter
        (fun kd => !strElem kd.1 cfg.excluded_devices &&
          decide (kd.2.battery_level < cfg.battery_threshold))).map
        (fun kd => mkDevInfo kd.2)) ∧
    ((async_update h cfg).devices_above_threshold).Perm
      (((get_all_battery_devices h).filter
        (fun kd => !strElem kd.1 cfg.excluded_devices &&
          !decide (kd.2.battery_level < cfg.battery_threshold))).map
        (fun kd => mkDevInfo kd.2)) := by
  constructor
  · refine (List.perm_insertionSort (fun x y => devLe x y = true)
      (categorize cfg.excluded_devices cfg.battery_threshold
        (get_all_battery_devices h)).2.1).trans ?_
    rw [categorize_below_eq]
  · refine (List.perm_insertionSort (fun x y => devLe x y = true)
      (categorize cfg.excluded_devices cfg.battery_threshold
        (get_all_battery_devices h)).2.2).trans ?_
    rw [categorize_above_eq]

theorem pySortedDev_eq_nil_iff (l : List DevInfo) : pySortedDev l = [] ↔ l = [] := by
  constructor
  · intro hn
    have hp : (pySortedDev l).Perm l := List.perm_insertionSort _ l
    rw [hn] at hp
    exact (List.Perm.nil_eq hp).symm
  · intro hn
    rw [hn]
    rfl

theorem pySortedExcl_eq_nil_iff (l : List ExclInfo) : pySortedExcl l = [] ↔ l = [] := by
  constructor
  · intro hn
    have hp : (pySortedExcl l).Perm l := List.perm_insertionSort _ l
    rw [hn] at hp
    exact (List.Perm.nil_eq hp).symm
  · intro hn
    rw [hn]
    rfl

/-- C4: after an update, the sensor state is "Problem" exactly when
`devices_below_threshold` is non-empty and "OK" otherwise, and
`devices_without_battery_info_status` is "Problem" exactly when
`devices_without_battery_info` is non-empty and "OK" otherwise. -/
theorem async_update_state_characterization (h : Hass) (cfg : Config) :
    ((async_update h cfg).state = STATE_PROBLEM ↔
      (async_update h cfg).devices_below_threshold ≠ []) ∧
    ((async_update h cfg).state = STATE_OK ↔
      (async_update h cfg).devices_below_threshold = []) ∧
    ((async_update h cfg).devices_without_battery_info_status = STATE_PROBLEM ↔
      (async_update h cfg).devices_without_battery_info ≠ []) ∧
    ((async_update h cfg).devices_without_battery_info_status = STATE_OK ↔
      (async_update h cfg).devices_without_battery_info = []) := by
  have hPO : STATE_PROBLEM ≠ STATE_OK := by decide
  have hb : (async_update h cfg).devices_below_threshold =
      pySortedDev (categorize cfg.excluded_devices cfg.battery_threshold
        (get_all_battery_devices h)).2.1 := rfl
  have hw : (async_update h cfg).devices_without_battery_info =
      pySortedExcl (categorizeWithout cfg.excluded_devices
        (get_devices_without_battery_info h)) := rfl
  have hst : (async_update h cfg).state =
      (if (categorize cfg.excluded_devices cfg.battery_threshold
            (get_all_battery_devices h)).2.1 ≠ [] then STATE_PROBLEM
        else STATE_OK) := rfl
  have hwst : (async_update h cfg).devices_without_battery_info_status =
      (if categorizeWithout cfg.excluded_devices
            (get_devices_without_battery_info h) ≠ [] then STATE_PROBLEM
        else STATE_OK) := rfl
  rw [hb, hw, hst, hwst, pySortedDev_eq_nil_iff, pySortedExcl_eq_nil_iff]
  by_cases h1 : (categorize cfg.excluded_devices cfg.battery_threshold
      (get_all_battery_devices h)).2.1 = [] <;>
    by_cases h2 : categorizeWithout cfg.excluded_devices
      (get_devices_without_battery_info h) = [] <;>
    simp [h1, h2, hPO, Ne.symm hPO, pySortedDev_eq_nil_iff, pySortedExcl_eq_nil_iff]

/-! ## The display order is a total preorder -/

theorem lexLt_trans : ∀ a b c : List Char,
    lexLt a b = true → lexLt b c = true → lexLt a c = true := by
  intro a
  induction a with
  | nil =>
    intro b c hab hbc
    cases b with
    | nil => simp [lexLt] at hab
    | cons y ys =>
      cases c with
      | nil => simp [lexLt] at hbc
      | cons z zs => simp [lexLt]
  | cons x xs ih =>
    intro b c hab hbc
    cases b with
    | nil => simp [lexLt] at hab
    | cons y ys =>
      cases c with
      | nil => simp [lexLt] at hbc
      | cons z zs =>
        simp only [lexLt, Bool.or_eq_true, Bool.and_eq_true,
          decide_eq_true_eq] at hab hbc ⊢
        rcases hab with hxy | ⟨rfl, hxs⟩
        · rcases hbc with hyz | ⟨rfl, hys⟩
          · exact Or.inl (lt_trans hxy hyz)
          · exact Or.inl hxy
        · rcases hbc with hyz | ⟨rfl, hys⟩
          · exact Or.inl hyz
          · exact Or.inr ⟨rfl, ih ys zs hxs hys⟩

theorem lexLt_trichotomy : ∀ a b : List Char,
    lexLt a b = true ∨ a = b ∨ lexLt b a = true := by
  intro a
  induction a with
  | nil =>
    intro b
    cases b with
    | nil => exact Or.inr (Or.inl rfl)
    | cons y ys => exact Or.inl (by simp [lexLt])
  | cons x xs ih =>
    intro b
    cases b with
    | nil => exact Or.inr (Or.inr (by simp [lexLt]))
    | cons y ys =>
      rcases lt_trichotomy x y with hxy | rfl | hyx
      · exact Or.inl (by simp [lexLt, hxy])
      · rcases ih ys with h1 | rfl | h2
        · exact Or.inl (by simp [lexLt, h1])
        · exact Or.inr (Or.inl rfl)
        · exact Or.inr (Or.inr (by simp [lexLt, h2]))
      · exact Or.inr (Or.inr (by simp [lexLt, hyx]))

theorem lexLe_total : ∀ a b : List Char, lexLe a b = true ∨ lexLe b a = true := by
  intro a b
  rcases lexLt_trichotomy a b with h | rfl | h
  · exact Or.inl (by simp [lexLe, h])
  · exact Or.inl (by simp [lexLe])
  · exact Or.inr (by simp [lexLe, h])

theorem lexLe_trans : ∀ a b c : List Char,
    lexLe a b = true → lexLe b c = true → lexLe a c = true := by
  intro a b c hab hbc
  simp only [lexLe, Bool.or_eq_true, decide_eq_true_eq] at hab hbc ⊢
  rcases hab with hab | rfl
  · rcases hbc with hbc | rfl
    · exact Or.inl (lexLt_trans _ _ _ hab hbc)
    · exact Or.inl hab
  · exact hbc

theorem keyLe3_total (a b : ℤ × List Char × List Char) :
    keyLe3 a b = true ∨ keyLe3 b a = true := by
  obtain ⟨a1, a2, a3⟩ := a
  obtain ⟨b1, b2, b3⟩ := b
  simp only [keyLe3, Bool.or_eq_true, Bool.and_eq_true, decide_eq_true_eq]
  rcases lt_trichotomy a1 b1 with h | rfl | h
  · exact Or.inl (Or.inl h)
  · rcases lexLt_trichotomy a2 b2 with h2 | rfl | h2
    · exact Or.inl (Or.inr ⟨rfl, Or.inl h2⟩)
    · rcases lexLe_total a3 b3 with h3 | h3
      · exact Or.inl (Or.inr ⟨rfl, Or.inr ⟨rfl, h3⟩⟩)
      · exact Or.inr (Or.inr ⟨rfl, Or.inr ⟨rfl, h3⟩⟩)
    · exact Or.inr (Or.inr ⟨rfl, Or.inl h2⟩)
  · exact Or.inr (Or.inl h)

theorem keyLe3_trans (a b c : ℤ × List Char × List Char)
    (hab : keyLe3 a b = true) (hbc : keyLe3 b c = true) : keyLe3 a c = true := by
  obtain ⟨a1, a2, a3⟩ := a
  obtain ⟨b1, b2, b3⟩ := b
  obtain ⟨c1, c2, c3⟩ := c
  simp only [keyLe3, Bool.or_eq_true, Bool.and_eq_true,
    decide_eq_true_eq] at hab hbc ⊢
  rcases hab with hab1 | ⟨rfl, hab2⟩
  · rcases hbc with hbc1 | ⟨rfl, hbc2⟩
    · exact Or.inl (lt_trans hab1 hbc1)
    · exact Or.inl hab1
  · rcases hbc with hbc1 | ⟨rfl, hbc2⟩
    · exact Or.inl hbc1
    · refine Or.inr ⟨rfl, ?_⟩
      rcases hab2 with hab2 | ⟨rfl, hab3⟩
      · rcases hbc2 with hbc2 | ⟨rfl, hbc3⟩
        · exact Or.inl (lexLt_trans _ _ _ hab2 hbc2)
        · exact Or.inl hab2
      · rcases hbc2 with hbc2 | ⟨rfl, hbc3⟩
        · exact Or.inl hbc2
        · exact Or.inr ⟨rfl, lexLe_trans _ _ _ hab3 hbc3⟩

theorem pySortedDev_sorted (l : List DevInfo) :
    List.Sorted (fun x y => devLe x y = true) (pySortedDev l) := by
  haveI : IsTotal DevInfo (fun x y => devLe x y = true) :=
    ⟨fun a b => keyLe3_total (devKey a) (devKey b)⟩
  haveI : IsTrans DevInfo (fun x y => devLe x y = true) :=
    ⟨fun a b c hab hbc => keyLe3_trans _ _ _ hab hbc⟩
  exact List.sorted_insertionSort _ l

theorem pySortedExcl_sorted (l : List ExclInfo) :
    List.Sorted (fun x y => exclLe x y = true) (pySortedExcl l) := by
  haveI : IsTotal ExclInfo (fun x y => exclLe x y = true) :=
    ⟨fun a b => keyLe3_total (exclKey a) (exclKey b)⟩
  haveI : IsTrans ExclInfo (fun x y => exclLe x y = true) :=
    ⟨fun a b c hab hbc => keyLe3_trans _ _ _ hab hbc⟩
  exact List.sorted_insertionSort _ l

/-- C5: after an update, `devices_below_threshold` and
`devices_above_threshold` are each sorted ascending by rounded battery
level, then case-insensitively by name, then case-insensitively by area
(the order `devLe`), and `excluded_devices` and
`devices_without_battery_info` are sorted case-insensitively by name then
area (the order `exclLe`). -/
theorem async_update_lists_sorted (h : Hass) (cfg : Config) :
    List.Sorted (fun x y => devLe x y = true)
      (async_update h cfg).devices_below_threshold ∧
    List.Sorted (fun x y => devLe x y = true)
      (async_update h cfg).devices_above_threshold ∧
    List.Sorted (fun x y => exclLe x y = true)
      (async_update h cfg).excluded_devices ∧
    List.Sorted (fun x y => exclLe x y = true)
      (async_update h cfg).devices_without_battery_info :=
  ⟨pySortedDev_sorted _, pySortedDev_sorted _,
    pySortedExcl_sorted _, pySortedExcl_sorted _⟩


/-! ## C1: the heuristic classifier -/

theorem firstAttrFloat_isSome_eq (s : State) : ∀ attrs : List String,
    (firstAttrFloat s attrs).isSome =
      attrs.any (fun a =>
        match lookupAttr s.attributes a with
        | some v => v.toFloat?.isSome
        | none => false) := by
  intro attrs
  induction attrs with
  | nil => simp [firstAttrFloat]
  | cons a rest ih =>
    rcases hv : lookupAttr s.attributes a with _ | v
    · simp [firstAttrFloat, hv, ih]
    · by_cases hn : v = Val.none_
      · subst hn
        simp [firstAttrFloat, hv, ih, Val.toFloat?]
      · rcases hf : v.toFloat? with _ | q
        · simp [firstAttrFloat, hv, hn, hf, ih]
        · simp [firstAttrFloat, hv, hn, hf]

/-- C1, counterexample: `c1state` has the known key `battery_level` present
(so the claim calls it battery-related) but holds `None` there, and the
classifier rejects it. -/
theorem is_battery_device_ne_claimed_heuristic :
    specBatteryRelated c1state = true ∧ is_battery_device c1state = false := by
  decide

/-- C1, amended: `is_battery_device` agrees everywhere with the amended
heuristic (attribute key present with a float-convertible value, or numeric
state in [0,100] with "battery" in the lowercased id, and the entity not
excluded). -/
theorem is_battery_device_iff_amended_heuristic (s : State) :
    is_battery_device s = specBatteryRelatedAmended s := by
  unfold is_battery_device specBatteryRelatedAmended get_battery_level
  by_cases hex : should_exclude_entity s
  · simp [hex]
  · rcases hf : firstAttrFloat s BATTERY_ATTRS with _ | q
    · have hany := firstAttrFloat_isSome_eq s BATTERY_ATTRS
      rw [hf] at hany
      rcases hb : strContains (strLower s.entity_id) "battery"
      · simp [hex, hf, ← hany, hb]
      · rcases hq : s.state.toFloat? with _ | q
        · simp [hex, hf, ← hany, hb, hq]
        · by_cases hr : 0 ≤ q ∧ q ≤ 100
          · simp [hex, hf, ← hany, hb, hq, hr]
          · simp [hex, hf, ← hany, hb, hq, hr]
    · have hany := firstAttrFloat_isSome_eq s BATTERY_ATTRS
      rw [hf] at hany
      simp [hex, hf, ← hany]

/-- C7: the [0,100] range validation lives only in the entity-id-substring
branch of `get_battery_level`: an attribute value of 150 is returned as-is
(out of range), while the same numeric value 150 arriving through the
entity-id heuristic is rejected. -/
theorem range_check_only_in_heuristic_branch :
    get_battery_level c7attrState = some 150 ∧ ¬ ((150 : ℚ) ≤ 100) ∧
      get_battery_level c7heurState = none := by
  decide

/-! ## C8: the exclusion invariants -/

theorem gdwbiLoop_origin (h : Hass) :
    ∀ (sts : List State) (acc : List (String × WithoutData)) (k : String)
      (d : WithoutData), alookup (gdwbiLoop h sts acc) k = some d →
      alookup acc k = some d ∨ ∃ s ∈ sts, entryWithout h s = some (k, d) := by
  intro sts
  induction sts with
  | nil =>
    intro acc k d hl
    exact Or.inl hl
  | cons s rest ih =>
    intro acc k d hl
    rcases hE : entryWithout h s with _ | ⟨k', d'⟩ <;>
      simp only [gdwbiLoop, hE] at hl
    · rcases ih acc k d hl with h1 | ⟨s', hs', he'⟩
      · exact Or.inl h1
      · exact Or.inr ⟨s', List.mem_cons_of_mem _ hs', he'⟩
    · by_cases hS : (alookup acc k').isSome
      · rw [if_pos hS] at hl
        rcases ih acc k d hl with h1 | ⟨s', hs', he'⟩
        · exact Or.inl h1
        · exact Or.inr ⟨s', List.mem_cons_of_mem _ hs', he'⟩
      · rw [if_neg hS] at hl
        rcases ih _ k d hl with h1 | ⟨s', hs', he'⟩
        · by_cases hkk : k = k'
          · subst hkk
            rw [alookup_aset_self] at h1
            obtain rfl : d' = d := Option.some.inj h1
            exact Or.inr ⟨s, List.mem_cons_self _ _, hE⟩
          · rw [alookup_aset_ne _ _ _ _ hkk] at h1
            exact Or.inl h1
        · exact Or.inr ⟨s', List.mem_cons_of_mem _ hs', he'⟩

theorem should_exclude_entity_eq_false (s : State)
    (hexcl : should_exclude_entity s = false) :
    strStartsWith s.entity_id ("sensor." ++ DOMAIN) = false ∧
      strElem (entityDomain s.entity_id) EXCLUDED_ENTITY_DOMAINS = false := by
  unfold should_exclude_entity at hexcl
  rcases hA : strStartsWith s.entity_id ("sensor." ++ DOMAIN)
  · rcases hB : strElem (entityDomain s.entity_id) EXCLUDED_ENTITY_DOMAINS
    · exact ⟨rfl, rfl⟩
    · rw [hA, hB] at hexcl
      simp at hexcl
  · rw [hA] at hexcl
    simp at hexcl

theorem is_battery_device_not_excluded (s : State)
    (hb : is_battery_device s = true) : should_exclude_entity s = false := by
  unfold is_battery_device get_battery_level at hb
  by_cases hex : should_exclude_entity s
  · rw [if_pos hex] at hb
    simp at hb
  · exact Bool.eq_false_iff.mpr hex

theorem has_battery_but_unavailable_not_excluded (s : State)
    (hb : has_battery_but_unavailable s = true) :
    should_exclude_entity s = false := by
  unfold has_battery_but_unavailable has_battery_attribute at hb
  by_cases hex : should_exclude_entity s
  · rw [if_pos hex] at hb
    simp at hb
  · exact Bool.eq_false_iff.mpr hex

theorem gdi_name_no_pattern (h : Hass) (s : State) (nm : String)
    (did an : Option String)
    (hg : get_device_info h s = (some nm, did, an)) :
    strContains nm EXCLUDED_NAME_PATTERN = false := by
  rcases hI : gdi_registry_block h s with _ | ⟨dn, did0, an0⟩ <;>
    simp only [get_device_info, hI] at hg
  · exact absurd (congrArg Prod.fst hg) (by simp)
  · rcases hc : (strTruthy (if strTruthy dn then dn else friendly_fallback s) &&
      strContains ((if strTruthy dn then dn else friendly_fallback s).getD "")
        EXCLUDED_NAME_PATTERN)
    · rw [hc] at hg
      simp only [Bool.false_eq_true, if_false] at hg
      obtain ⟨h1, -, -⟩ := Prod.mk.injEq .. ▸ hg
      rcases Bool.and_eq_false_iff.mp hc with hT | hC
      · have hnm : nm = "" := by
          rw [h1] at hT
          simpa [strTruthy] using hT
        rw [hnm]
        decide
      · rw [h1] at hC
        simpa using hC
    · rw [hc] at hg
      simp only [if_true] at hg
      exact absurd (congrArg Prod.fst hg) (by simp)

theorem gdi_no_domain_identifier (h : Hass) (s : State) (nm : String)
    (did an : Option String)
    (hg : get_device_info h s = (some nm, did, an)) :
    ∀ ee, h.entity_reg s.entity_id = some ee → strTruthy ee.device_id = true →
      ∀ de, h.device_reg (ee.device_id.getD "") = some de →
      ∀ p ∈ de.identifiers, ¬ p.1 = DOMAIN := by
  intro ee hee htr de hde p hp heq
  have hany : de.identifiers.any (fun p => decide (p.1 = DOMAIN)) = true :=
    List.any_eq_true.mpr ⟨p, hp, by simp [heq]⟩
  have hblock : gdi_registry_block h s = none := by
    simp [gdi_registry_block, hee, htr, hde, hany]
  rw [get_device_info, hblock] at hg
  exact absurd (congrArg Prod.fst hg) (by simp)

theorem entry_state_conditions (h : Hass) (s : State) (nm : String)
    (did an : Option String)
    (hexcl : should_exclude_entity s = false)
    (hgdi : get_device_info h s = (some nm, did, an)) :
    strStartsWith s.entity_id ("sensor." ++ DOMAIN) = false ∧
    strElem (entityDomain s.entity_id) EXCLUDED_ENTITY_DOMAINS = false ∧
    strContains nm EXCLUDED_NAME_PATTERN = false ∧
    (∀ ee, h.entity_reg s.entity_id = some ee → strTruthy ee.device_id = true →
      ∀ de, h.device_reg (ee.device_id.getD "") = some de →
      ∀ p ∈ de.identifiers, ¬ p.1 = DOMAIN) := by
  obtain ⟨h1, h2⟩ := should_exclude_entity_eq_false s hexcl
  exact ⟨h1, h2, gdi_name_no_pattern h s nm did an hgdi,
    gdi_no_domain_identifier h s nm did an hgdi⟩

theorem entryOf_some_spec (h : Hass) (s : State) (k : String) (d : DeviceData)
    (he : entryOf h s = some (k, d)) :
    is_battery_device s = true ∧ d.entity_id = s.entity_id ∧
      ∃ did an, get_device_info h s = (some d.name, did, an) := by
  unfold entryOf at he
  rcases hib : is_battery_device s
  · rw [hib] at he
    simp at he
  · rw [hib] at he
    simp only [Bool.not_true, Bool.false_eq_true, if_false] at he
    rcases hbl : get_battery_level s with _ | lvl <;> rw [hbl] at he
    · simp at he
    · rcases hg : get_device_info h s with ⟨dn, did, an⟩
      rcases dn with _ | nm <;> rw [hg] at he
      · simp at he
      · obtain ⟨-, rfl⟩ := Prod.mk.injEq .. ▸ Option.some.inj he
        exact ⟨rfl, rfl, did, an, rfl⟩

theorem entryWithout_some_spec (h : Hass) (s : State) (k : String)
    (d : WithoutData) (he : entryWithout h s = some (k, d)) :
    has_battery_but_unavailable s = true ∧ d.entity_id = s.entity_id ∧
      ∃ did an, get_device_info h s = (some d.name, did, an) := by
  unfold entryWithout at he
  rcases hib : has_battery_but_unavailable s
  · rw [hib] at he
    simp at he
  · rw [hib] at he
    simp only [Bool.not_true, Bool.false_eq_true, if_false] at he
    rcases hg : get_device_info h s with ⟨dn, did, an⟩
    rcases dn with _ | nm <;> rw [hg] at he
    · simp at he
    · obtain ⟨-, rfl⟩ := Prod.mk.injEq .. ▸ Option.some.inj he
      exact ⟨rfl, rfl, did, an, rfl⟩

/-- C8: no result of `get_all_battery_devices` or
`get_devices_without_battery_info` contains the integration's own sensor or
devices: every returned entry has an entity id that does not start with
"sensor.battery_devices_monitor" and is not from an excluded domain, a name
not containing "Battery Devices Monitor", and, when its entity resolves to
a registered device, that device's identifiers do not use the
`battery_devices_monitor` domain. -/
theorem results_exclude_monitor (h : Hass) :
    (∀ k d, alookup (get_all_battery_devices h) k = some d →
      strStartsWith d.entity_id ("sensor." ++ DOMAIN) = false ∧
      strElem (entityDomain d.entity_id) EXCLUDED_ENTITY_DOMAINS = false ∧
      strContains d.name EXCLUDED_NAME_PATTERN = false ∧
      (∀ ee, h.entity_reg d.entity_id = some ee → strTruthy ee.device_id = true →
        ∀ de, h.device_reg (ee.device_id.getD "") = some de →
        ∀ p ∈ de.identifiers, ¬ p.1 = DOMAIN)) ∧
    (∀ k d, alookup (get_devices_without_battery_info h) k = some d →
      strStartsWith d.entity_id ("sensor." ++ DOMAIN) = false ∧
      strElem (entityDomain d.entity_id) EXCLUDED_ENTITY_DOMAINS = false ∧
      strContains d.name EXCLUDED_NAME_PATTERN = false ∧
      (∀ ee, h.entity_reg d.entity_id = some ee → strTruthy ee.device_id = true →
        ∀ de, h.device_reg (ee.device_id.getD "") = some de →
        ∀ p ∈ de.identifiers, ¬ p.1 = DOMAIN)) := by
  constructor
  · intro k d hl
    rcases gabdLoop_origin h h.states [] k d hl with h0 | ⟨s, -, he⟩
    · exact absurd h0 (Option.noConfusion)
    · obtain ⟨hib, heid, did, an, hg⟩ := entryOf_some_spec h s k d he
      rw [heid]
      exact entry_state_conditions h s d.name did an
        (is_battery_device_not_excluded s hib) hg
  · intro k d hl
    rcases gdwbiLoop_origin h h.states [] k d hl with h0 | ⟨s, -, he⟩
    · exact absurd h0 (Option.noConfusion)
    · obtain ⟨hib, heid, did, an, hg⟩ := entryWithout_some_spec h s k d he
      rw [heid]
      exact entry_state_conditions h s d.name did an
        (has_battery_but_unavailable_not_excluded s hib) hg

/-- Witness for C8 at `c8hass`: the returned device entry exists and its
name avoids the excluded pattern. -/
theorem results_exclude_monitor_witness :
    alookup (get_all_battery_devices c8hass) "dev_door" = some c8dev ∧
      strContains c8dev.name EXCLUDED_NAME_PATTERN = false :=
  ⟨by decide,
    ((results_exclude_monitor c8hass).1 "dev_door" c8dev (by decide)).2.2.1⟩

/-! ## C6: the query services -/

theorem formatLowLines_eq_map (l : List DevInfo) :
    formatLowLines l = l.map fmtLowLine := by
  induction l with
  | nil => rfl
  | cons d rest ih => simp [formatLowLines, ih]

theorem formatWithoutLines_eq_map (l : List ExclInfo) :
    formatWithoutLines l = l.map fmtWithoutLine := by
  induction l with
  | nil => rfl
  | cons d rest ih => simp [formatWithoutLines, ih]

/-- C6: each query service raises exactly when the call omits `entity_id`
or names an entity with no state (no entity ever has the empty id), and
otherwise returns the newline-joined per-device lines of the corresponding
sensor attribute ("name (area) - level%", resp. "name (area)", the area
part omitted when falsy). -/
theorem services_error_iff_and_format (h : ServiceHass) (eid : Option String)
    (hempty : h.states "" = none) :
    ((∃ e, get_low_battery_devices h eid = Except.error e) ↔
      (eid = none ∨ ∃ s, eid = some s ∧ h.states s = none)) ∧
    (∀ s st, eid = some s → h.states s = some st →
      get_low_battery_devices h eid =
        Except.ok (joinNL (st.devices_below_threshold.map fmtLowLine))) ∧
    ((∃ e, get_devices_without_battery_info_service h eid = Except.error e) ↔
      (eid = none ∨ ∃ s, eid = some s ∧ h.states s = none)) ∧
    (∀ s st, eid = some s → h.states s = some st →
      get_devices_without_battery_info_service h eid =
        Except.ok (joinNL (st.devices_without_battery_info.map fmtWithoutLine))) := by
  rcases eid with _ | s
  · refine ⟨⟨fun _ => Or.inl rfl, fun _ => ⟨_, rfl⟩⟩, ?_, ⟨fun _ => Or.inl rfl, fun _ => ⟨_, rfl⟩⟩, ?_⟩ <;>
      intro s st hs <;> exact absurd hs (Option.noConfusion)
  · by_cases hs0 : s = ""
    · subst hs0
      refine ⟨⟨fun _ => Or.inr ⟨"", rfl, hempty⟩, fun _ => ?_⟩, ?_,
        ⟨fun _ => Or.inr ⟨"", rfl, hempty⟩, fun _ => ?_⟩, ?_⟩
      · exact ⟨"entity_id is required", by simp [get_low_battery_devices]⟩
      · intro s1 st1 he1 hst1
        obtain rfl : s1 = "" := (Option.some.inj he1).symm
        rw [hempty] at hst1
        exact absurd hst1 (Option.noConfusion)
      · exact ⟨"entity_id is required",
          by simp [get_devices_without_battery_info_service]⟩
      · intro s1 st1 he1 hst1
        obtain rfl : s1 = "" := (Option.some.inj he1).symm
        rw [hempty] at hst1
        exact absurd hst1 (Option.noConfusion)
    · rcases hst : h.states s with _ | st
      · refine ⟨⟨fun _ => Or.inr ⟨s, rfl, hst⟩, fun _ => ?_⟩, ?_,
          ⟨fun _ => Or.inr ⟨s, rfl, hst⟩, fun _ => ?_⟩, ?_⟩
        · exact ⟨"Entity " ++ s ++ " not found",
            by simp [get_low_battery_devices, hs0, hst]⟩
        · intro s1 st1 he1 hst1
          obtain rfl : s1 = s := (Option.some.inj he1).symm
          rw [hst] at hst1
          exact absurd hst1 (Option.noConfusion)
        · exact ⟨"Entity " ++ s ++ " not found",
            by simp [get_devices_without_battery_info_service, hs0, hst]⟩
        · intro s1 st1 he1 hst1
          obtain rfl : s1 = s := (Option.some.inj he1).symm
          rw [hst] at hst1
          exact absurd hst1 (Option.noConfusion)
      · have hok1 : get_low_battery_devices h (some s) =
            Except.ok (joinNL (formatLowLines st.devices_below_threshold)) := by
          simp [get_low_battery_devices, hs0, hst]
        have hok2 : get_devices_without_battery_info_service h (some s) =
            Except.ok (joinNL (formatWithoutLines st.devices_without_battery_info)) := by
          simp [get_devices_without_battery_info_service, hs0, hst]
        refine ⟨⟨fun ⟨e, he⟩ => ?_, fun hr => ?_⟩, ?_,
          ⟨fun ⟨e, he⟩ => ?_, fun hr => ?_⟩, ?_⟩
        · rw [hok1] at he
          exact absurd he (Except.noConfusion)
        · rcases hr with hr | ⟨s1, he1, hn1⟩
          · exact absurd hr (Option.noConfusion)
          · obtain rfl : s1 = s := (Option.some.inj he1).symm
            rw [hst] at hn1
            exact absurd hn1 (Option.noConfusion)
        · intro s1 st1 he1 hst1
          obtain rfl : s1 = s := (Option.some.inj he1).symm
          rw [hst] at hst1
          obtain rfl : st = st1 := Option.some.inj hst1
          rw [hok1, formatLowLines_eq_map]
        · rw [hok2] at he
          exact absurd he (Except.noConfusion)
        · rcases hr with hr | ⟨s1, he1, hn1⟩
          · exact absurd hr (Option.noConfusion)
          · obtain rfl : s1 = s := (Option.some.inj he1).symm
            rw [hst] at hn1
            exact absurd hn1 (Option.noConfusion)
        · intro s1 st1 he1 hst1
          obtain rfl : s1 = s := (Option.some.inj he1).symm
          rw [hst] at hst1
          obtain rfl : st = st1 := Option.some.inj hst1
          rw [hok2, formatWithoutLines_eq_map]

/-- Witness for C6 at `c6hass`: no entity has the empty id, and querying
the monitor's entity returns the formatted low-battery listing. -/
theorem services_error_iff_and_format_witness :
    c6hass.states "" = none ∧
      get_low_battery_devices c6hass (some "sensor.battery_monitor_status") =
        Except.ok (joinNL (c6attrs.devices_below_threshold.map fmtLowLine)) :=
  ⟨rfl,
    (services_error_iff_and_format c6hass (some "sensor.battery_monitor_status")
      rfl).2.1 "sensor.battery_monitor_status" c6attrs rfl rfl⟩

/-- C9: on every state-change event delivered by the host (per the spec,
the host fires the handler for state changes anywhere in the system), the
sensor's handler schedules a forced full refresh, independently of the
event's payload - it never narrows the recomputation to a subset of
entities. -/
theorem handler_schedules_full_refresh :
    (∀ e : StateChangeEvent,
      handle_state_change e = ScheduledAction.scheduleUpdate true) ∧
    (∀ e e' : StateChangeEvent,
      handle_state_change e = handle_state_change e') :=
  ⟨fun _ => rfl, fun _ _ => rfl⟩
